import Mathlib

/-!
# Verification of the rp-binary-info metadata encoding

A shallow embedding of the rp-binary-info crate: the Binary Info discovery
header, the entry records with their common header, the tag and identifier
constants, the RAM-to-Flash mapping table, and the entry constructors.
Machine integers (u8, u16, u32) are modelled as Nat carrying their byte
values; raw pointers and references are modelled as Nat addresses, with 0
standing for the null pointer.
-/

namespace BinaryInfo

/-- The set of data types that picotool supports (repr(u16) enum in lib.rs). -/
inductive DataType where
  | Raw
  | SizedData
  | BinaryInfoListZeroTerminated
  | Bson
  | IdAndInt
  | IdAndString
  | BlockDevice
  | PinsWithFunction
  | PinsWithName
  | PinsWithNames
  deriving DecidableEq, Fintype, Repr

/-- The u16 discriminant assigned to each DataType variant in lib.rs. -/
def DataType.toU16 : DataType → Nat
  | .Raw => 1
  | .SizedData => 2
  | .BinaryInfoListZeroTerminated => 3
  | .Bson => 4
  | .IdAndInt => 5
  | .IdAndString => 6
  | .BlockDevice => 7
  | .PinsWithFunction => 8
  | .PinsWithName => 9
  | .PinsWithNames => 10

/-- u16::from_be_bytes on a two-byte array: the first byte is the most
significant. Arguments are byte values (below 256). -/
def u16_from_be_bytes (b0 b1 : Nat) : Nat := b0 * 256 + b1

/-- make_tag in lib.rs: u16::from_be_bytes of the array with c2 first and
c1 second. -/
def make_tag (c1 c2 : Nat) : Nat := u16_from_be_bytes c2 c1

/-- TAG_RASPBERRY_PI in lib.rs: make_tag of the bytes of R (0x52) and
P (0x50). -/
def TAG_RASPBERRY_PI : Nat := make_tag 0x52 0x50

def ID_RP_PROGRAM_NAME : Nat := 0x02031c86
def ID_RP_PROGRAM_VERSION_STRING : Nat := 0x11a9bc3a
def ID_RP_PROGRAM_BUILD_DATE_STRING : Nat := 0x9da22254
def ID_RP_BINARY_END : Nat := 0x68f465de
def ID_RP_PROGRAM_URL : Nat := 0x1856239a
def ID_RP_PROGRAM_DESCRIPTION : Nat := 0xb6a07c19
def ID_RP_PROGRAM_FEATURE : Nat := 0xa1f4b453
def ID_RP_PROGRAM_BUILD_ATTRIBUTE : Nat := 0x4275f0d3
def ID_RP_SDK_VERSION : Nat := 0x5360b3ab
def ID_RP_PICO_BOARD : Nat := 0xb63cffbb
def ID_RP_BOOT2_NAME : Nat := 0x7f8882e1

/-- A static string slice. as_ptr yields the address of its first byte,
which is all the entry constructors use of it. -/
structure Str where
  address : Nat
  deriving DecidableEq

/-- str::as_ptr, the address of the first byte of the string data. -/
def Str.as_ptr (s : Str) : Nat := s.address

/-- The common header at the start of every entry (entry.rs). -/
structure Common where
  data_type : DataType
  tag : Nat
  deriving DecidableEq

/-- An entry holding an ID and a pointer to a null-terminated string
(entry.rs). The value field is the pointer, modelled as an address. -/
structure IdAndString where
  header : Common
  id : Nat
  value : Nat
  deriving DecidableEq

/-- An entry holding an ID and a u32 integer (entry.rs). -/
structure IdAndInt where
  header : Common
  id : Nat
  value : Nat
  deriving DecidableEq

/-- A reference to an entry: a repr(transparent) wrapper around a
const-u32 pointer (entry.rs). -/
structure Addr where
  ptr : Nat
  deriving DecidableEq

/-- One line of the RAM/Flash mapping table (lib.rs). Each field is a
const-u32 pointer, modelled as an address with 0 for null. -/
structure MappingTableEntry where
  source_addr_start : Nat
  dest_addr_start : Nat
  dest_addr_end : Nat
  deriving DecidableEq

/-- A static slice: the address of its first element together with its
elements. -/
structure Slice (α : Type) where
  ptr : Nat
  data : List α

/-- slice::as_ptr, the address of the first element. -/
def Slice.as_ptr {α : Type} (s : Slice α) : Nat := s.ptr

/-- The Binary Info header block that picotool looks for (lib.rs). The two
entry-table bounds are static references to Addr values, modelled as the
addresses of those statics. -/
structure Header where
  marker_start : Nat
  entries_start : Nat
  entries_end : Nat
  mapping_table : Nat
  marker_end : Nat

/-- The BINARY_INFO_MARKER_START magic value from picotool. -/
def Header.MARKER_START : Nat := 0x7188ebf2

/-- The BINARY_INFO_MARKER_END magic value from picotool. -/
def Header.MARKER_END : Nat := 0xe71aa390

/-- Header::new in lib.rs: store the two entry-table bounds, the pointer to
the first element of the mapping-table slice, and the two magic markers. -/
def Header.new (entries_start entries_end : Nat)
    (mapping_table : Slice MappingTableEntry) : Header :=
  { marker_start := Header.MARKER_START
    entries_start := entries_start
    entries_end := entries_end
    mapping_table := mapping_table.as_ptr
    marker_end := Header.MARKER_END }

/-- program_name in lib.rs. -/
def program_name (name : Str) : IdAndString :=
  { header := { data_type := DataType.IdAndString, tag := TAG_RASPBERRY_PI }
    id := ID_RP_PROGRAM_NAME
    value := name.as_ptr }

/-- program_version_string in lib.rs. -/
def program_version_string (name : Str) : IdAndString :=
  { header := { data_type := DataType.IdAndString, tag := TAG_RASPBERRY_PI }
    id := ID_RP_PROGRAM_VERSION_STRING
    value := name.as_ptr }

/-- program_description in lib.rs. -/
def program_description (name : Str) : IdAndString :=
  { header := { data_type := DataType.IdAndString, tag := TAG_RASPBERRY_PI }
    id := ID_RP_PROGRAM_DESCRIPTION
    value := name.as_ptr }

/-- program_url in lib.rs. -/
def program_url (name : Str) : IdAndString :=
  { header := { data_type := DataType.IdAndString, tag := TAG_RASPBERRY_PI }
    id := ID_RP_PROGRAM_URL
    value := name.as_ptr }

/-- program_build_date_string in lib.rs. -/
def program_build_date_string (name : Str) : IdAndString :=
  { header := { data_type := DataType.IdAndString, tag := TAG_RASPBERRY_PI }
    id := ID_RP_PROGRAM_BUILD_DATE_STRING
    value := name.as_ptr }

/-- program_feature in lib.rs. -/
def program_feature (name : Str) : IdAndString :=
  { header := { data_type := DataType.IdAndString, tag := TAG_RASPBERRY_PI }
    id := ID_RP_PROGRAM_FEATURE
    value := name.as_ptr }

/-- program_build_attribute in lib.rs. -/
def program_build_attribute (name : Str) : IdAndString :=
  { header := { data_type := DataType.IdAndString, tag := TAG_RASPBERRY_PI }
    id := ID_RP_PROGRAM_BUILD_ATTRIBUTE
    value := name.as_ptr }

/-- boot2_name in lib.rs. -/
def boot2_name (name : Str) : IdAndString :=
  { header := { data_type := DataType.IdAndString, tag := TAG_RASPBERRY_PI }
    id := ID_RP_BOOT2_NAME
    value := name.as_ptr }

/-- pico_board in lib.rs. -/
def pico_board (name : Str) : IdAndString :=
  { header := { data_type := DataType.IdAndString, tag := TAG_RASPBERRY_PI }
    id := ID_RP_PICO_BOARD
    value := name.as_ptr }

/-- custom_integer in lib.rs. -/
def custom_integer (tag : Nat) (id : Nat) (value : Nat) : IdAndInt :=
  { header := { data_type := DataType.IdAndInt, tag := tag }
    id := id
    value := value }

/-- The value static emitted by each expansion of the program_feature bang
registration in lib.rs: its body builds the record by calling program_name
on the null-terminated feature string, not by calling program_feature. -/
def program_feature_emitted (s : Str) : IdAndString := program_name s

/-- The all-null terminating sentinel test for a mapping-table entry. -/
def MappingTableEntry.isNullEntry (e : MappingTableEntry) : Bool :=
  e.source_addr_start == 0 && e.dest_addr_start == 0 && e.dest_addr_end == 0

/-- Whether the destination range of an entry contains the address a. -/
def MappingTableEntry.containsDest (e : MappingTableEntry) (a : Nat) : Bool :=
  e.dest_addr_start ≤ a && a < e.dest_addr_end

/-- Modelled from the spec: the external reader walks the mapping table,
stopping at the first all-null sentinel; for the first entry whose
destination range contains the runtime address a it computes
source_addr_start + (a - dest_addr_start) as the on-disk address. The walk
itself is performed by the host-side tool and has no source in this
repository. -/
def translate : List MappingTableEntry → Nat → Option Nat
  | [], _ => none
  | e :: rest, a =>
    if e.isNullEntry then none
    else if e.containsDest a then
      some (e.source_addr_start + (a - e.dest_addr_start))
    else translate rest a

/-- The MAPPING_TABLE static of the pico example: one real entry built from
the sidata, sdata and edata linker symbols, then the all-null terminating
marker. The symbol addresses are parameters. -/
def MAPPING_TABLE (sidata sdata edata : Nat) : List MappingTableEntry :=
  [ { source_addr_start := sidata, dest_addr_start := sdata,
      dest_addr_end := edata },
    { source_addr_start := 0, dest_addr_start := 0, dest_addr_end := 0 } ]

/-- The PICOTOOL_META static of the pico example: a Header built from the
entry-table boundary symbols and the MAPPING_TABLE static, whose first
element lives at address mt. -/
def PICOTOOL_META (bi_entries_start bi_entries_end mt sidata sdata edata :
    Nat) : Header :=
  Header.new bi_entries_start bi_entries_end
    { ptr := mt, data := MAPPING_TABLE sidata sdata edata }

/-- A statically allocated value together with the address it lives at. -/
structure Located (α : Type) where
  address : Nat
  value : α

/-- IdAndString::addr in entry.rs: wrap the address of the record itself
in an Addr (the pointer casts do not change the address). -/
def IdAndString.addr (e : Located IdAndString) : Addr := { ptr := e.address }

/-- IdAndInt::addr in entry.rs: wrap the address of the record itself in
an Addr. -/
def IdAndInt.addr (e : Located IdAndInt) : Addr := { ptr := e.address }

/-- The two little-endian bytes of a u16 value. -/
def le16 (n : Nat) : List Nat := [n % 256, n / 256 % 256]

/-- The four little-endian bytes of a u32 value. -/
def le32 (n : Nat) : List Nat :=
  [n % 256, n / 256 % 256, n / 2 ^ 16 % 256, n / 2 ^ 24 % 256]

/-- The repr(C) byte layout of the common header: the u16 data_type
discriminant followed by the u16 tag. -/
def Common.encode (c : Common) : List Nat :=
  le16 c.data_type.toU16 ++ le16 c.tag

/-- The repr(C) byte layout of an IdAndString record: the common header
first, then the id, then the string pointer. -/
def IdAndString.encode (e : IdAndString) : List Nat :=
  e.header.encode ++ le32 e.id ++ le32 e.value

/-- The repr(C) byte layout of an IdAndInt record: the common header
first, then the id, then the integer value. -/
def IdAndInt.encode (e : IdAndInt) : List Nat :=
  e.header.encode ++ le32 e.id ++ le32 e.value

/-- Claim C1, counterexample: make_tag does not put the first character in
the high byte; at c1 = 0x41 and c2 = 0x42 the code returns 0x4241, not
0x4142 as the claim states. -/
theorem make_tag_not_first_char_high_byte :
    ¬ (make_tag 0x41 0x42 = 0x41 * 256 + 0x42) := by decide

/-- Claim C1, amended: for all bytes c1 and c2, make_tag packs the second
character in the high byte and the first in the low byte, so
make_tag c1 c2 = c2 * 256 + c1. -/
theorem make_tag_packs_first_char_low_byte :
    ∀ c1 c2 : Nat, make_tag c1 c2 = c2 * 256 + c1 :=
  fun _ _ => rfl

/-- Claim C2: Header.new stores exactly the given entries_start and
entries_end and the pointer to the first element of the mapping-table
slice, and its marker_start and marker_end fields are the fixed magic
constants 0x7188ebf2 and 0xe71aa390 regardless of the inputs. -/
theorem header_new_round_trip :
    ∀ (es ee : Nat) (mt : Slice MappingTableEntry),
      (Header.new es ee mt).entries_start = es ∧
      (Header.new es ee mt).entries_end = ee ∧
      (Header.new es ee mt).mapping_table = mt.as_ptr ∧
      (Header.new es ee mt).marker_start = 0x7188ebf2 ∧
      (Header.new es ee mt).marker_end = 0xe71aa390 :=
  fun _ _ _ => ⟨rfl, rfl, rfl, rfl, rfl⟩

/-- Claim C3: every constructor returns a record carrying exactly its
inputs and its designated registry identifier: custom_integer stores the
given tag, id and value, and each string constructor stores the tag
TAG_RASPBERRY_PI, the address of the string bytes, and its own well-known
identifier constant. -/
theorem constructors_store_inputs_and_ids :
    (∀ t i v : Nat, (custom_integer t i v).header.tag = t ∧
      (custom_integer t i v).id = i ∧ (custom_integer t i v).value = v) ∧
    (∀ s : Str, (program_name s).header.tag = TAG_RASPBERRY_PI ∧
      (program_name s).value = s.as_ptr ∧
      (program_name s).id = ID_RP_PROGRAM_NAME) ∧
    (∀ s : Str, (program_version_string s).header.tag = TAG_RASPBERRY_PI ∧
      (program_version_string s).value = s.as_ptr ∧
      (program_version_string s).id = ID_RP_PROGRAM_VERSION_STRING) ∧
    (∀ s : Str, (program_description s).header.tag = TAG_RASPBERRY_PI ∧
      (program_description s).value = s.as_ptr ∧
      (program_description s).id = ID_RP_PROGRAM_DESCRIPTION) ∧
    (∀ s : Str, (program_url s).header.tag = TAG_RASPBERRY_PI ∧
      (program_url s).value = s.as_ptr ∧
      (program_url s).id = ID_RP_PROGRAM_URL) ∧
    (∀ s : Str, (program_build_date_string s).header.tag = TAG_RASPBERRY_PI ∧
      (program_build_date_string s).value = s.as_ptr ∧
      (program_build_date_string s).id = ID_RP_PROGRAM_BUILD_DATE_STRING) ∧
    (∀ s : Str, (program_feature s).header.tag = TAG_RASPBERRY_PI ∧
      (program_feature s).value = s.as_ptr ∧
      (program_feature s).id = ID_RP_PROGRAM_FEATURE) ∧
    (∀ s : Str, (program_build_attribute s).header.tag = TAG_RASPBERRY_PI ∧
      (program_build_attribute s).value = s.as_ptr ∧
      (program_build_attribute s).id = ID_RP_PROGRAM_BUILD_ATTRIBUTE) ∧
    (∀ s : Str, (boot2_name s).header.tag = TAG_RASPBERRY_PI ∧
      (boot2_name s).value = s.as_ptr ∧
      (boot2_name s).id = ID_RP_BOOT2_NAME) ∧
    (∀ s : Str, (pico_board s).header.tag = TAG_RASPBERRY_PI ∧
      (pico_board s).value = s.as_ptr ∧
      (pico_board s).id = ID_RP_PICO_BOARD) :=
  ⟨fun _ _ _ => ⟨rfl, rfl, rfl⟩, fun _ => ⟨rfl, rfl, rfl⟩,
    fun _ => ⟨rfl, rfl, rfl⟩, fun _ => ⟨rfl, rfl, rfl⟩,
    fun _ => ⟨rfl, rfl, rfl⟩, fun _ => ⟨rfl, rfl, rfl⟩,
    fun _ => ⟨rfl, rfl, rfl⟩, fun _ => ⟨rfl, rfl, rfl⟩,
    fun _ => ⟨rfl, rfl, rfl⟩, fun _ => ⟨rfl, rfl, rfl⟩⟩

/-- Claim C4: the data_type field always matches the records concrete
shape: all nine string constructors set data_type to IdAndString on an
IdAndString record, and custom_integer sets data_type to IdAndInt on an
IdAndInt record. -/
theorem constructors_data_type_matches_shape :
    (∀ s : Str, (program_name s).header.data_type = DataType.IdAndString) ∧
    (∀ s : Str,
      (program_version_string s).header.data_type = DataType.IdAndString) ∧
    (∀ s : Str,
      (program_description s).header.data_type = DataType.IdAndString) ∧
    (∀ s : Str, (program_url s).header.data_type = DataType.IdAndString) ∧
    (∀ s : Str,
      (program_build_date_string s).header.data_type =
        DataType.IdAndString) ∧
    (∀ s : Str, (program_feature s).header.data_type = DataType.IdAndString) ∧
    (∀ s : Str,
      (program_build_attribute s).header.data_type = DataType.IdAndString) ∧
    (∀ s : Str, (boot2_name s).header.data_type = DataType.IdAndString) ∧
    (∀ s : Str, (pico_board s).header.data_type = DataType.IdAndString) ∧
    (∀ t i v : Nat,
      (custom_integer t i v).header.data_type = DataType.IdAndInt) :=
  ⟨fun _ => rfl, fun _ => rfl, fun _ => rfl, fun _ => rfl, fun _ => rfl,
    fun _ => rfl, fun _ => rfl, fun _ => rfl, fun _ => rfl,
    fun _ _ _ => rfl⟩

/-- Claim C5: the record emitted by the program_feature registration has
id equal to ID_RP_PROGRAM_NAME rather than ID_RP_PROGRAM_FEATURE, because
the body calls program_name; the emitted record is identical to a
program-name record for the same string. -/
theorem program_feature_emitted_has_program_name_id :
    (∀ s : Str, (program_feature_emitted s).id = ID_RP_PROGRAM_NAME) ∧
    ID_RP_PROGRAM_NAME ≠ ID_RP_PROGRAM_FEATURE ∧
    (∀ s : Str, program_feature_emitted s = program_name s) :=
  ⟨fun _ => rfl, by decide, fun _ => rfl⟩

/-- Claim C6: make_tag is injective on byte pairs, and make_tag applied to
the bytes of R (0x52) and P (0x50) equals TAG_RASPBERRY_PI. -/
theorem make_tag_injective_and_rp_tag :
    (∀ c1 c2 d1 d2 : Nat, c1 < 256 → c2 < 256 → d1 < 256 → d2 < 256 →
      make_tag c1 c2 = make_tag d1 d2 → c1 = d1 ∧ c2 = d2) ∧
    make_tag 0x52 0x50 = TAG_RASPBERRY_PI := by
  constructor
  · intro c1 c2 d1 d2 h1 h2 h3 h4 h
    unfold make_tag u16_from_be_bytes at h
    omega
  · rfl

/-- Witness for claim C6 at the concrete byte pair (0x41, 0x42). -/
theorem make_tag_injective_and_rp_tag_witness :
    (0x41 : Nat) = 0x41 ∧ (0x42 : Nat) = 0x42 :=
  make_tag_injective_and_rp_tag.1 0x41 0x42 0x41 0x42 (by decide) (by decide)
    (by decide) (by decide) rfl

/-- Claim C7: DataType is a closed enumeration of exactly ten values whose
u16 discriminants are 1 through 10 in declaration order, with distinct
discriminants all lying between 1 and 10. -/
theorem data_type_closed_ten_values :
    DataType.toU16 DataType.Raw = 1 ∧
    DataType.toU16 DataType.SizedData = 2 ∧
    DataType.toU16 DataType.BinaryInfoListZeroTerminated = 3 ∧
    DataType.toU16 DataType.Bson = 4 ∧
    DataType.toU16 DataType.IdAndInt = 5 ∧
    DataType.toU16 DataType.IdAndString = 6 ∧
    DataType.toU16 DataType.BlockDevice = 7 ∧
    DataType.toU16 DataType.PinsWithFunction = 8 ∧
    DataType.toU16 DataType.PinsWithName = 9 ∧
    DataType.toU16 DataType.PinsWithNames = 10 ∧
    Fintype.card DataType = 10 ∧
    Function.Injective DataType.toU16 ∧
    (∀ d : DataType, 1 ≤ DataType.toU16 d ∧ DataType.toU16 d ≤ 10) := by
  refine ⟨rfl, rfl, rfl, rfl, rfl, rfl, rfl, rfl, rfl, rfl, ?_, ?_, ?_⟩
  · decide
  · decide
  · decide

/-- Claim C8: mapping-table address translation: the first non-sentinel
entry whose destination range contains the address yields
source_addr_start + (a - dest_addr_start); if a sentinel is reached before
any entry matches, there is no result; in particular, with the single
entry from 0x20000000 to 0x20000100 mapped to source 0x10000000, address
0x20000050 translates to 0x10000050 and address 0x20000200 has no
mapping. -/
theorem mapping_table_translation :
    (∀ (pre : List MappingTableEntry) (e : MappingTableEntry)
        (rest : List MappingTableEntry) (a : Nat),
      (∀ p ∈ pre, p.isNullEntry = false ∧ p.containsDest a = false) →
      e.isNullEntry = false → e.containsDest a = true →
      translate (pre ++ e :: rest) a =
        some (e.source_addr_start + (a - e.dest_addr_start))) ∧
    (∀ (pre : List MappingTableEntry) (s : MappingTableEntry)
        (rest : List MappingTableEntry) (a : Nat),
      (∀ p ∈ pre, p.isNullEntry = false ∧ p.containsDest a = false) →
      s.isNullEntry = true →
      translate (pre ++ s :: rest) a = none) ∧
    translate (MAPPING_TABLE 0x10000000 0x20000000 0x20000100) 0x20000050 =
      some 0x10000050 ∧
    translate (MAPPING_TABLE 0x10000000 0x20000000 0x20000100) 0x20000200 =
      none := by
  refine ⟨?_, ?_, by decide, by decide⟩
  · intro pre e rest a hpre he hm
    induction pre with
    | nil => simp [translate, he, hm]
    | cons p ps ih =>
      have hp := hpre p (by simp)
      rw [List.cons_append]
      simp only [translate, hp.1, hp.2, Bool.false_eq_true, if_false]
      exact ih fun q hq => hpre q (List.mem_cons_of_mem p hq)
  · intro pre s rest a hpre hs
    induction pre with
    | nil => simp [translate, hs]
    | cons p ps ih =>
      have hp := hpre p (by simp)
      rw [List.cons_append]
      simp only [translate, hp.1, hp.2, Bool.false_eq_true, if_false]
      exact ih fun q hq => hpre q (List.mem_cons_of_mem p hq)

/-- Witness for claim C8: the general translation rule applied to the
concrete single-entry table at address 0x20000050. -/
theorem mapping_table_translation_witness :
    translate
      ({ source_addr_start := 0x10000000, dest_addr_start := 0x20000000,
         dest_addr_end := 0x20000100 } ::
        [{ source_addr_start := 0, dest_addr_start := 0,
           dest_addr_end := 0 }]) 0x20000050 = some 0x10000050 :=
  mapping_table_translation.1 []
    { source_addr_start := 0x10000000, dest_addr_start := 0x20000000,
      dest_addr_end := 0x20000100 }
    [{ source_addr_start := 0, dest_addr_start := 0, dest_addr_end := 0 }]
    0x20000050 (by simp) (by decide) (by decide)

/-- Claim C9: the mapping table passed to Header.new in the example has as
its last element the all-null sentinel entry, whatever addresses the
linker symbols take; the example header is built from exactly that
table. -/
theorem mapping_table_sentinel_terminated :
    ∀ sidata sdata edata : Nat,
      (MAPPING_TABLE sidata sdata edata).getLast? =
        some { source_addr_start := 0, dest_addr_start := 0,
               dest_addr_end := 0 } ∧
      MappingTableEntry.isNullEntry
        { source_addr_start := 0, dest_addr_start := 0,
          dest_addr_end := 0 } = true ∧
      (∀ bs be mt : Nat,
        PICOTOOL_META bs be mt sidata sdata edata =
          Header.new bs be
            { ptr := mt, data := MAPPING_TABLE sidata sdata edata }) :=
  fun _ _ _ => ⟨rfl, rfl, fun _ _ _ => rfl⟩

/-- Claim C10: addr wraps the address of the record itself, distinct
record addresses give distinct Addr values, and the repr(C) byte layout of
both record shapes begins with the common data_type and tag header. -/
theorem addr_wraps_record_address :
    (∀ e : Located IdAndString, IdAndString.addr e = { ptr := e.address }) ∧
    (∀ e : Located IdAndInt, IdAndInt.addr e = { ptr := e.address }) ∧
    (∀ e1 e2 : Located IdAndString, e1.address ≠ e2.address →
      IdAndString.addr e1 ≠ IdAndString.addr e2) ∧
    (∀ e1 e2 : Located IdAndInt, e1.address ≠ e2.address →
      IdAndInt.addr e1 ≠ IdAndInt.addr e2) ∧
    (∀ e : IdAndString,
      (IdAndString.encode e).take 4 = Common.encode e.header) ∧
    (∀ e : IdAndInt,
      (IdAndInt.encode e).take 4 = Common.encode e.header) := by
  refine ⟨fun _ => rfl, fun _ => rfl, ?_, ?_, ?_, ?_⟩
  · intro e1 e2 hne h
    exact hne (congrArg Addr.ptr h)
  · intro e1 e2 hne h
    exact hne (congrArg Addr.ptr h)
  · intro e
    simp [IdAndString.encode, Common.encode, le16, le32]
  · intro e
    simp [IdAndInt.encode, Common.encode, le16, le32]

/-- Witness for claim C10: two string records at the distinct addresses 1
and 2 get distinct Addr values. -/
theorem addr_wraps_record_address_witness :
    IdAndString.addr
        { address := 1, value := program_name { address := 5 } } ≠
      IdAndString.addr
        { address := 2, value := program_name { address := 5 } } :=
  addr_wraps_record_address.2.2.1
    { address := 1, value := program_name { address := 5 } }
    { address := 2, value := program_name { address := 5 } }
    (by decide)

end BinaryInfo
